import Mathlib

/-!
Verification development for the RPCSEC_GSS client authentication module
(net/sunrpc/auth_gss/auth_gss.c).  The definitions below are a shallow
embedding of the C source: machine integers become Nat with explicit
`% 2^32` where 32-bit overflow matters, byte buffers become `List Nat`,
fallible parsing returns `Except Int`, and the externally supplied GSS
mechanism operations (import_sec_context, get_mic, wrap, ...) are passed
in as parameters, since they are out of scope for this module.
-/

namespace AuthGss

/-- 2^32, the modulus of u32 arithmetic in the kernel. -/
def U32MOD : Nat := 4294967296

/-- RPC_AUTH_GSS flavor number (rpc-auth-6). -/
def RPC_AUTH_GSS : Nat := 6

/-- RPC_GSS_VERSION from the RPCSEC_GSS protocol. -/
def RPC_GSS_VERSION : Nat := 1

/-- enum rpc_gss_proc: RPC_GSS_PROC_DATA. -/
def RPC_GSS_PROC_DATA : Nat := 0

/-- enum rpc_gss_proc: RPC_GSS_PROC_DESTROY. -/
def RPC_GSS_PROC_DESTROY : Nat := 3

/-- RPC_MAX_AUTH_SIZE from the sunrpc headers. -/
def RPC_MAX_AUTH_SIZE : Nat := 400

/-- GSS-API major status: success. -/
def GSS_S_COMPLETE : Nat := 0

/-- GSS-API major status: routine error "context expired" (12 << 16). -/
def GSS_S_CONTEXT_EXPIRED : Nat := 786432

/-- UPCALL_BUF_LEN: size of gss_upcall_msg.databuf. -/
def UPCALL_BUF_LEN : Nat := 128

/-- GSSD_MIN_TIMEOUT: default context lifetime (one hour) when the daemon sends 0. -/
def GSSD_MIN_TIMEOUT : Nat := 3600

/-- GSS_RETRY_EXPIRED: default value of the expired-cred retry delay, in seconds. -/
def GSS_RETRY_EXPIRED : Nat := 5

/-- Module parameter gss_expired_cred_retry_delay, initialized to GSS_RETRY_EXPIRED.
The tunable value itself is passed to the functions below as a `delay` argument;
this constant is its default. -/
def gss_expired_cred_retry_delay : Nat := GSS_RETRY_EXPIRED

/-- errno EACCES. -/
def EACCES : Int := 13

/-- errno EFAULT. -/
def EFAULT : Int := 14

/-- errno ENOMEM. -/
def ENOMEM : Int := 12

/-- errno EINVAL. -/
def EINVAL : Int := 22

/-- errno ENOSYS. -/
def ENOSYS : Int := 38

/-- errno EAGAIN. -/
def EAGAIN : Int := 11

/-- errno EKEYEXPIRED. -/
def EKEYEXPIRED : Int := 127

/-- struct gss_cl_ctx.  The mechanism handle gc_gss_ctx is opaque and owned by
the mechanism layer, so it is not carried here; gc_seq is a u32 maintained
below 2^32. -/
structure GssClCtx where
  gc_proc : Nat
  gc_seq : Nat
  count : Nat
  gc_win : Nat
  gc_expiry : Nat
  gc_wire_ctx : List Nat
  deriving Repr, DecidableEq

/-- The lifecycle flag bits of struct rpc_cred.cr_flags used by this module
(RPCAUTH_CRED_NEW, RPCAUTH_CRED_UPTODATE, RPCAUTH_CRED_NEGATIVE), together
with the gss_cred fields the claims touch. -/
structure GssCredSt where
  new : Bool
  uptodate : Bool
  negative : Bool
  cr_uid : Nat
  gc_principal : Option String
  gc_upcall_timestamp : Nat
  gc_ctx : Option GssClCtx
  deriving Repr, DecidableEq

/-- struct auth_cred: the key the cache lookup carries. -/
structure AuthCred where
  uid : Nat
  principal : Option String
  deriving Repr, DecidableEq

/-- gss_alloc_context(): allocated zeroed, then gc_proc = RPC_GSS_PROC_DATA,
gc_seq = 1 (NetApp 6.4R1 does not accept seqno 0), refcount 1. -/
def gss_alloc_context : GssClCtx :=
  { gc_proc := RPC_GSS_PROC_DATA
    gc_seq := 1
    count := 1
    gc_win := 0
    gc_expiry := 0
    gc_wire_ctx := [] }

/-- gss_get_ctx: atomic_inc(&ctx->count). -/
def gss_get_ctx (ctx : GssClCtx) : GssClCtx :=
  { ctx with count := ctx.count + 1 }

/-- gss_cred_set_ctx: if RPCAUTH_CRED_NEW is not set, return without touching
the cred; otherwise take a context reference, publish gc_ctx
(rcu_assign_pointer), set RPCAUTH_CRED_UPTODATE, then clear RPCAUTH_CRED_NEW. -/
def gss_cred_set_ctx (cred : GssCredSt) (ctx : GssClCtx) : GssCredSt :=
  if cred.new = false then cred
  else { cred with
          gc_ctx := some (gss_get_ctx ctx)
          uptodate := true
          new := false }

/-- The mutation steps gss_cred_set_ctx performs on the NEW path, in source
order: gss_get_ctx, rcu_assign_pointer(gc_ctx), set_bit(UPTODATE),
clear_bit(NEW). -/
inductive SetCtxStep where
  | takeRef
  | publishCtx
  | setUptodate
  | clearNew
  deriving Repr, DecidableEq

/-- The sequence of mutation steps gss_cred_set_ctx performs, transcribed in
the statement order of the source (empty when the NEW guard fails). -/
def gss_cred_set_ctx_trace (cred : GssCredSt) : List SetCtxStep :=
  if cred.new = false then []
  else [SetCtxStep.takeRef, SetCtxStep.publishCtx,
        SetCtxStep.setUptodate, SetCtxStep.clearNew]

/-! ### Downcall parsing (simple_get_bytes / simple_get_netobj / gss_fill_context) -/

/-- Native-endian decoding of a byte run into an unsigned value (the model
fixes little-endian; only that it is a bijection on fixed-width runs
matters). -/
def decodeLE : List Nat → Nat
  | [] => 0
  | b :: rest => b + 256 * decodeLE rest

/-- Twos-complement reading of a w = 32 bit unsigned value as a signed int,
as the C code does when it stores 4 bytes into an `int`. -/
def asInt32 (v : Nat) : Int :=
  if v < 2147483648 then (v : Int) else (v : Int) - 4294967296

/-- simple_get_bytes: copy `len` bytes out of the buffer, failing with -EFAULT
when the buffer is too short (the `q > end` check). -/
def simple_get_bytes (p : List Nat) (len : Nat) : Except Int (Nat × List Nat) :=
  if p.length < len then Except.error (-EFAULT)
  else Except.ok (decodeLE (p.take len), p.drop len)

/-- simple_get_netobj: a 4-byte length followed by that many bytes.  The
kmemdup allocation is modeled as succeeding. -/
def simple_get_netobj (p : List Nat) : Except Int (List Nat × List Nat) :=
  match simple_get_bytes p 4 with
  | Except.error e => Except.error e
  | Except.ok (len, rest) =>
      if rest.length < len then Except.error (-EFAULT)
      else Except.ok (rest.take len, rest.drop len)

/-- gss_fill_context: parse timeout (0 means GSSD_MIN_TIMEOUT), window,
then either the signed errno (window == 0: -EKEYEXPIRED verbatim, anything
else becomes -EACCES) or wire context, token length and token, handing the
token to import_sec_context of the mechanism (`importR`, an external
parameter).  `now` and `hz` model jiffies and HZ.  On success the function
returns the filled context fields and the unconsumed trailing bytes. -/
def gss_fill_context (p : List Nat) (now hz : Nat)
    (importR : List Nat → Except Int Unit) : Except Int (GssClCtx × List Nat) :=
  match simple_get_bytes p 4 with
  | Except.error e => Except.error e
  | Except.ok (timeout0, p1) =>
    let timeout := if timeout0 = 0 then GSSD_MIN_TIMEOUT else timeout0
    match simple_get_bytes p1 4 with
    | Except.error e => Except.error e
    | Except.ok (window_size, p2) =>
      if window_size = 0 then
        match simple_get_bytes p2 4 with
        | Except.error e => Except.error e
        | Except.ok (ret, _) =>
            if asInt32 ret = -EKEYEXPIRED then Except.error (-EKEYEXPIRED)
            else Except.error (-EACCES)
      else
        match simple_get_netobj p2 with
        | Except.error e => Except.error e
        | Except.ok (wire, p3) =>
          match simple_get_bytes p3 4 with
          | Except.error e => Except.error e
          | Except.ok (seclen, p4) =>
            if p4.length < seclen then Except.error (-EFAULT)
            else
              match importR (p4.take seclen) with
              | Except.error e => Except.error e
              | Except.ok _ =>
                  Except.ok
                    ({ gss_alloc_context with
                        gc_expiry := now + timeout * hz
                        gc_win := window_size
                        gc_wire_ctx := wire }, p4.drop seclen)

/-- The error dispatch of gss_pipe_downcall after gss_fill_context runs, as a
function of the fill result: on success the context is published on the
message (a reference is taken) and the call returns mlen; -EACCES and
-EKEYEXPIRED are recorded on the message verbatim and the call still
returns mlen; the transient errors -EFAULT, -ENOMEM, -EINVAL, -ENOSYS
rewrite the message errno to -EAGAIN (the call returns the original error);
any other value hits BUG() (modeled as `none`).  The triple is
(msg.ctx, msg.errno, return value). -/
def gss_pipe_downcall_result (fill : Except Int GssClCtx) (mlen : Int) :
    Option (Option GssClCtx × Int × Int) :=
  match fill with
  | Except.ok ctx => some (some (gss_get_ctx ctx), 0, mlen)
  | Except.error e =>
      if e = -EACCES ∨ e = -EKEYEXPIRED then some (none, e, mlen)
      else if e = -EFAULT ∨ e = -ENOMEM ∨ e = -EINVAL ∨ e = -ENOSYS then
        some (none, -EAGAIN, e)
      else none

/-- gss_handle_downcall_result: on errno 0 with a context present, clear
NEGATIVE and install the context via gss_cred_set_ctx; on -EKEYEXPIRED set
NEGATIVE; always stamp gc_upcall_timestamp with the current jiffies. -/
def gss_handle_downcall_result (cred : GssCredSt) (msgErrno : Int)
    (msgCtx : Option GssClCtx) (now : Nat) : GssCredSt :=
  let cred1 :=
    if msgErrno = 0 then
      match msgCtx with
      | none => cred
      | some c => gss_cred_set_ctx { cred with negative := false } c
    else if msgErrno = -EKEYEXPIRED then { cred with negative := true }
    else cred
  { cred1 with gc_upcall_timestamp := now }

/-! ### Upcall deduplication (__gss_find_upcall / gss_add_msg) -/

/-- struct gss_upcall_msg, restricted to the fields the claims touch:
uid, refcount, the result errno, and the published context. -/
structure GssUpcallMsg where
  uid : Nat
  count : Nat
  errno : Int
  ctx : Option GssClCtx
  deriving Repr, DecidableEq

/-- __gss_find_upcall: walk pipe->in_downcall for a message with the given
uid; when found, atomic_inc its count and return it.  The result carries the
bumped message and the list with the bump applied in place. -/
def gss_find_upcall (l : List GssUpcallMsg) (uid : Nat) :
    Option (GssUpcallMsg × List GssUpcallMsg) :=
  match l with
  | [] => none
  | m :: rest =>
      if m.uid = uid then
        some ({ m with count := m.count + 1 }, { m with count := m.count + 1 } :: rest)
      else
        match gss_find_upcall rest uid with
        | none => none
        | some (found, rest2) => some (found, m :: rest2)

/-- gss_add_msg: under the pipe lock, look for an existing upcall with the
same uid.  If none exists, take a reference on the new message and link it
into pipe->in_downcall; otherwise return the existing message (whose count
__gss_find_upcall already bumped) and leave the new message unlinked. -/
def gss_add_msg (gss_msg : GssUpcallMsg) (l : List GssUpcallMsg) :
    GssUpcallMsg × List GssUpcallMsg :=
  match gss_find_upcall l gss_msg.uid with
  | none =>
      ({ gss_msg with count := gss_msg.count + 1 },
       { gss_msg with count := gss_msg.count + 1 } :: l)
  | some (old, l2) => (old, l2)

/-! ### Cred matching (gss_match) -/

/-- The gc_ctx->gc_expiry dereference in gss_match.  The source reads it
unconditionally on the non-NEW path; cache creds that are past NEW always
carry a context, so the `none` arm is never exercised there. -/
def gc_ctx_expiry (cred : GssCredSt) : Nat :=
  match cred.gc_ctx with
  | some c => c.gc_expiry
  | none => 0

/-- The key comparison at the `out:` label of gss_match: a requester
principal must be matched by an equal cred principal; with no requester
principal the cred must also have none and the uids must be equal. -/
def gss_match_key (acred : AuthCred) (cred : GssCredSt) : Bool :=
  match acred.principal with
  | some p =>
      match cred.gc_principal with
      | none => false
      | some q => p = q
  | none =>
      match cred.gc_principal with
      | some _ => false
      | none => cred.cr_uid = acred.uid

/-- gss_match: NEW creds skip straight to the key comparison; otherwise an
expired context (time_after(jiffies, gc_expiry)) or a missing UPTODATE bit
fails the match before the key comparison runs. -/
def gss_match (acred : AuthCred) (cred : GssCredSt) (now : Nat) : Bool :=
  if cred.new then gss_match_key acred cred
  else if now > gc_ctx_expiry cred then false
  else if cred.uptodate = false then false
  else gss_match_key acred cred

/-! ### Refresh and the negative-entry cooldown -/

/-- gss_cred_is_negative_entry: a NEGATIVE cred inside the half-open
cooldown window [gc_upcall_timestamp, gc_upcall_timestamp + delay * hz)
(time_in_range_open) is still negative. `delay` is the
gss_expired_cred_retry_delay tunable, `hz` is HZ. -/
def gss_cred_is_negative_entry (delay hz : Nat) (cred : GssCredSt) (now : Nat) : Bool :=
  cred.negative &&
    (decide (cred.gc_upcall_timestamp ≤ now) &&
     decide (now < cred.gc_upcall_timestamp + delay * hz))

/-- gss_refresh: fail with -EKEYEXPIRED while the negative-entry cooldown
holds; otherwise renew a stale (neither NEW nor UPTODATE) cred through the
cache (`renew`, an external oracle for gss_renew_cred), and drive an upcall
(`upcall`, the gss_refresh_upcall path) when the resulting cred is NEW. -/
def gss_refresh (delay hz : Nat) (renew : Except Int GssCredSt)
    (upcall : GssCredSt → Int) (cred : GssCredSt) (now : Nat) : Int :=
  if gss_cred_is_negative_entry delay hz cred now then -EKEYEXPIRED
  else if cred.new = false ∧ cred.uptodate = false then
    match renew with
    | Except.error e => e
    | Except.ok cred2 => if cred2.new then upcall cred2 else 0
  else if cred.new then upcall cred else 0

/-! ### v1 upcall encoding (gss_encode_v1_msg) -/

/-- sprintf "%d" applied to a u32 (from_kuid returns uid_t, which the
format string reinterprets as a signed int). -/
def sprintf_d_u32 (uid : Nat) : String :=
  if uid < 2147483648 then toString uid
  else "-" ++ toString (4294967296 - uid)

/-- gss_encode_v1_msg: successive sprintf calls into databuf, accumulating
msg.len — "mech=%s uid=%d ", then optional "target=%s ", "service=%s ",
"enctypes=%s ", then "\n".  Returns the buffer contents and msg.len. -/
def gss_encode_v1_msg (mechName : String) (uid : Nat)
    (principal serviceName enctypes : Option String) : String × Nat :=
  let s0 := "mech=" ++ mechName ++ " uid=" ++ sprintf_d_u32 uid ++ " "
  let len0 := s0.length
  let s1 := match principal with
    | some cp => s0 ++ "target=" ++ cp ++ " "
    | none => s0
  let len1 := match principal with
    | some cp => len0 + ("target=" ++ cp ++ " ").length
    | none => len0
  let s2 := match serviceName with
    | some sv => s1 ++ "service=" ++ sv ++ " "
    | none => s1
  let len2 := match serviceName with
    | some sv => len1 + ("service=" ++ sv ++ " ").length
    | none => len1
  let s3 := match enctypes with
    | some et => s2 ++ "enctypes=" ++ et ++ " "
    | none => s2
  let len3 := match enctypes with
    | some et => len2 + ("enctypes=" ++ et ++ " ").length
    | none => len2
  (s3 ++ "\n", len3 + 1)

/-- The BUG_ON(gss_msg->msg.len > UPCALL_BUF_LEN) guard after
gss_encode_v1_msg: a payload longer than 128 bytes is never emitted. -/
def gss_encode_v1_msg_checked (mechName : String) (uid : Nat)
    (principal serviceName enctypes : Option String) : Option String :=
  let r := gss_encode_v1_msg mechName uid principal serviceName enctypes
  if r.2 ≤ UPCALL_BUF_LEN then some r.1 else none

/-- The v1 payload as the specification words it: the ASCII text
"mech=<name> uid=<decimal> ", optionally followed by "target=<principal> ",
"service=<name> " and "enctypes=<list> ", and a final newline. -/
def gss_v1_payload_spec (mechName : String) (uid : Nat)
    (principal serviceName enctypes : Option String) : String :=
  "mech=" ++ mechName ++ " uid=" ++ sprintf_d_u32 uid ++ " " ++
  (match principal with
    | some cp => "target=" ++ cp ++ " "
    | none => "") ++
  (match serviceName with
    | some sv => "service=" ++ sv ++ " "
    | none => "") ++
  (match enctypes with
    | some et => "enctypes=" ++ et ++ " "
    | none => "") ++ "\n"

/-! ### Marshal (gss_marshal) -/

/-- The credential body gss_marshal writes: flavor word, length word, then
version, proc, seq, service and the opaque wire context. -/
structure GssWireCred where
  flavor : Nat
  credLen : Nat
  version : Nat
  proc : Nat
  seqno : Nat
  service : Nat
  wireCtx : List Nat
  deriving Repr, DecidableEq

/-- Result of gss_marshal: rq_seqno is assigned under gc_seq_lock before the
MIC is attempted, so it is set even when the call then fails; `written` is
`none` exactly when gss_marshal returns NULL. The second component of
`written` is the verifier MIC length. -/
structure MarshalOut where
  rq_seqno : Nat
  written : Option (GssWireCred × Nat)
  ctx : GssClCtx
  flags : GssCredSt
  deriving Repr, DecidableEq

/-- gss_marshal: take rq_seqno = gc_seq++ (u32) under the seq lock, write the
RPC_AUTH_GSS flavor, the credential body (version 1, gc_proc, seqno,
service, wire context; the length word counts the bytes after itself), then
ask the mechanism for a MIC over everything from the xid (`micStat`,
`micLen`: the external gss_get_mic outcome).  GSS_S_CONTEXT_EXPIRED clears
UPTODATE and the call still completes; any other nonzero major status makes
gss_marshal return NULL. -/
def gss_marshal (ctx : GssClCtx) (flags : GssCredSt) (service : Nat)
    (micStat micLen : Nat) : MarshalOut :=
  let seqno := ctx.gc_seq
  let ctx2 := { ctx with gc_seq := (ctx.gc_seq + 1) % U32MOD }
  let wc : GssWireCred :=
    { flavor := RPC_AUTH_GSS
      credLen := 16 + 4 + 4 * ((ctx.gc_wire_ctx.length + 3) / 4)
      version := RPC_GSS_VERSION
      proc := ctx.gc_proc
      seqno := seqno
      service := service
      wireCtx := ctx.gc_wire_ctx }
  if micStat = GSS_S_CONTEXT_EXPIRED then
    { rq_seqno := seqno, written := some (wc, micLen), ctx := ctx2
      flags := { flags with uptodate := false } }
  else if micStat ≠ 0 then
    { rq_seqno := seqno, written := none, ctx := ctx2, flags := flags }
  else
    { rq_seqno := seqno, written := some (wc, micLen), ctx := ctx2, flags := flags }

/-- The context state after n successive gss_marshal calls on a freshly
allocated context (the MIC outcome does not affect gc_seq). -/
def ctx_after_marshals : Nat → GssClCtx
  | 0 => gss_alloc_context
  | n + 1 =>
      (gss_marshal (ctx_after_marshals n)
        { new := false, uptodate := true, negative := false, cr_uid := 0
          gc_principal := none, gc_upcall_timestamp := 0, gc_ctx := none }
        0 0 0).ctx

/-- The seqno the (n+1)-th gss_marshal call on a fresh context assigns. -/
def seqno_of_marshal (n : Nat) : Nat := (ctx_after_marshals n).gc_seq

/-! ### Validate (gss_validate) -/

/-- gss_validate: the flavor of the reply verifier must be RPC_AUTH_GSS and its
length at most RPC_MAX_AUTH_SIZE; then the MIC over the big-endian request
seqno is verified (`verifyStat`: the external gss_verify_mic outcome).
GSS_S_CONTEXT_EXPIRED clears UPTODATE and validation still fails; any
nonzero status fails validation.  On success the recorded au_verfsize is
XDR_QUADLEN(len) + 2. -/
def gss_validate (flags : GssCredSt) (flav len verifyStat : Nat) :
    Option Nat × GssCredSt :=
  if len > RPC_MAX_AUTH_SIZE then (none, flags)
  else if flav ≠ RPC_AUTH_GSS then (none, flags)
  else
    let flags2 :=
      if verifyStat = GSS_S_CONTEXT_EXPIRED then { flags with uptodate := false }
      else flags
    if verifyStat ≠ 0 then (none, flags2)
    else (some ((len + 3) / 4 + 2), flags2)

/-! ### Wrap and unwrap -/

/-- The values gss_wrap_req_priv produces after the mechanism wrap: the
patched opaque length (snd_buf->len - offset), the pad
(3 - ((snd_buf->len - offset - 1) & 3)) of zero bytes appended, and the
final snd_buf->len. -/
structure PrivWrapOut where
  opaqueLen : Nat
  pad : Nat
  finalLen : Nat
  deriving Repr, DecidableEq

/-- The length patch and padding at the end of gss_wrap_req_priv, for a
snd_buf of `bufLen` bytes after gss_wrap, with the covered subrange starting
at `offset`. -/
def gss_wrap_req_priv_finish (bufLen offset : Nat) : PrivWrapOut :=
  { opaqueLen := bufLen - offset
    pad := 3 - ((bufLen - offset - 1) % 4)
    finalLen := bufLen + (3 - ((bufLen - offset - 1) % 4)) }

/-- gss_wrap_req_priv: the major status of the mechanism wrap (`majStat`) is
dispatched as in the source — GSS_S_CONTEXT_EXPIRED clears UPTODATE but the
ciphertext is treated as committed and the request still goes out (the
length is patched, the pad appended, 0 returned); any other nonzero status
returns -EIO before the patch. -/
def gss_wrap_req_priv (flags : GssCredSt) (majStat bufLen offset : Nat) :
    Except Int PrivWrapOut × GssCredSt :=
  if majStat = GSS_S_CONTEXT_EXPIRED then
    (Except.ok (gss_wrap_req_priv_finish bufLen offset),
     { flags with uptodate := false })
  else if majStat ≠ 0 then (Except.error (-5), flags)
  else (Except.ok (gss_wrap_req_priv_finish bufLen offset), flags)

/-- The gss_get_mic status dispatch inside gss_wrap_req_integ:
GSS_S_CONTEXT_EXPIRED clears UPTODATE and the call still completes (returns
0 after appending the MIC); any other nonzero status returns -EIO. -/
def gss_wrap_req_integ (flags : GssCredSt) (majStat : Nat) : Int × GssCredSt :=
  if majStat = GSS_S_CONTEXT_EXPIRED then (0, { flags with uptodate := false })
  else if majStat ≠ 0 then (-5, flags)
  else (0, flags)

/-- The gss_verify_mic status dispatch inside gss_unwrap_resp_integ:
GSS_S_CONTEXT_EXPIRED clears UPTODATE; any status other than
GSS_S_COMPLETE fails the call with -EIO. -/
def gss_unwrap_resp_integ (flags : GssCredSt) (majStat : Nat) : Int × GssCredSt :=
  let flags2 :=
    if majStat = GSS_S_CONTEXT_EXPIRED then { flags with uptodate := false }
    else flags
  (if majStat ≠ GSS_S_COMPLETE then -5 else 0, flags2)

/-- The gss_unwrap status dispatch inside gss_unwrap_resp_priv, with the
same shape as the integrity path. -/
def gss_unwrap_resp_priv (flags : GssCredSt) (majStat : Nat) : Int × GssCredSt :=
  let flags2 :=
    if majStat = GSS_S_CONTEXT_EXPIRED then { flags with uptodate := false }
    else flags
  (if majStat ≠ GSS_S_COMPLETE then -5 else 0, flags2)

/-! ### Spec-shaped definitions used by refinement claims -/

/-- The gss_match behavior as the specification words it: a NEW cred matches
on the key alone; a non-NEW cred must be unexpired and UPTODATE; the key
matches when the requester principal is matched by an equal cred principal,
or both sides lack principals and the uids are equal. -/
def gss_match_spec (acred : AuthCred) (cred : GssCredSt) (now : Nat) : Bool :=
  (cred.new || (!decide (now > gc_ctx_expiry cred) && cred.uptodate)) &&
  (match acred.principal with
   | some p => decide (cred.gc_principal = some p)
   | none => decide (cred.gc_principal = none) && decide (cred.cr_uid = acred.uid))

/-! ### Theorems -/

/-- C10: installing a context is guarded by the NEW flag: with NEW clear,
gss_cred_set_ctx returns without changing context pointer or flags; a
second call after a successful install is a no-op, so a context is
installed at most once; on the NEW path the context pointer is published
before UPTODATE is set and before NEW is cleared (the mutation trace is
exactly takeRef, publishCtx, setUptodate, clearNew, in that order). -/
theorem gss_cred_set_ctx_guarded (cred : GssCredSt) (c1 c2 : GssClCtx) :
    (cred.new = false → gss_cred_set_ctx cred c1 = cred) ∧
    gss_cred_set_ctx (gss_cred_set_ctx cred c1) c2 = gss_cred_set_ctx cred c1 ∧
    (cred.new = true →
      (gss_cred_set_ctx cred c1).gc_ctx = some (gss_get_ctx c1) ∧
      (gss_cred_set_ctx cred c1).uptodate = true ∧
      (gss_cred_set_ctx cred c1).new = false ∧
      gss_cred_set_ctx_trace cred =
        [SetCtxStep.takeRef, SetCtxStep.publishCtx,
         SetCtxStep.setUptodate, SetCtxStep.clearNew] ∧
      (gss_cred_set_ctx_trace cred).indexOf SetCtxStep.publishCtx <
        (gss_cred_set_ctx_trace cred).indexOf SetCtxStep.setUptodate ∧
      (gss_cred_set_ctx_trace cred).indexOf SetCtxStep.setUptodate <
        (gss_cred_set_ctx_trace cred).indexOf SetCtxStep.clearNew) := by
  cases hn : cred.new with
  | false =>
      refine ⟨fun _ => by simp [gss_cred_set_ctx, hn], ?_, fun h => by simp at h⟩
      simp [gss_cred_set_ctx, hn]
  | true =>
      refine ⟨fun h => by simp at h, ?_, fun _ => ?_⟩
      · simp [gss_cred_set_ctx, hn]
      · refine ⟨by simp [gss_cred_set_ctx, hn], by simp [gss_cred_set_ctx, hn],
          by simp [gss_cred_set_ctx, hn], by simp [gss_cred_set_ctx_trace, hn], ?_, ?_⟩ <;>
          simp [gss_cred_set_ctx_trace, hn]

/-- Witness for gss_cred_set_ctx_guarded at a concrete NEW cred and a
concrete non-NEW cred. -/
theorem gss_cred_set_ctx_guarded_witness :
    (gss_cred_set_ctx
        { new := false, uptodate := true, negative := false, cr_uid := 3
          gc_principal := none, gc_upcall_timestamp := 0, gc_ctx := none }
        gss_alloc_context =
      { new := false, uptodate := true, negative := false, cr_uid := 3
        gc_principal := none, gc_upcall_timestamp := 0, gc_ctx := none }) ∧
    (gss_cred_set_ctx
        { new := true, uptodate := false, negative := false, cr_uid := 3
          gc_principal := none, gc_upcall_timestamp := 0, gc_ctx := none }
        gss_alloc_context).new = false := by
  refine ⟨(gss_cred_set_ctx_guarded _ gss_alloc_context gss_alloc_context).1 rfl, ?_⟩
  exact ((gss_cred_set_ctx_guarded
    { new := true, uptodate := false, negative := false, cr_uid := 3
      gc_principal := none, gc_upcall_timestamp := 0, gc_ctx := none }
    gss_alloc_context gss_alloc_context).2.2 rfl).2.2.1

/-- C5: gss_match agrees everywhere with the match rule as the specification
states it: NEW creds match on the key alone, non-NEW creds additionally
require an unexpired context and the UPTODATE bit; the key requires equal
principals when the requester supplies one, and otherwise no cred principal
and equal uids. -/
theorem gss_match_correct (acred : AuthCred) (cred : GssCredSt) (now : Nat) :
    gss_match acred cred now = gss_match_spec acred cred now := by
  unfold gss_match gss_match_spec gss_match_key
  rcases acred.principal with _ | p <;> rcases hc : cred.gc_principal with _ | q <;>
    by_cases hn : cred.new <;> by_cases he : now > gc_ctx_expiry cred <;>
      by_cases hu : cred.uptodate <;>
        simp [hn, he, hu, hc, eq_comm]

/-- C6: for a NEGATIVE cred, a refresh with now inside the half-open window
[gc_upcall_timestamp, gc_upcall_timestamp + delay * hz) fails immediately
with -EKEYEXPIRED — for every renew and upcall oracle, so no upcall is
issued — where the delay tunable defaults to 5 seconds; outside that window
the negative-entry cooldown check passes. -/
theorem gss_refresh_negative_cooldown (delay hz : Nat)
    (renew : Except Int GssCredSt) (upcall : GssCredSt → Int)
    (cred : GssCredSt) (now : Nat) :
    gss_expired_cred_retry_delay = 5 ∧
    (cred.negative = true → cred.gc_upcall_timestamp ≤ now →
      now < cred.gc_upcall_timestamp + delay * hz →
      gss_refresh delay hz renew upcall cred now = -EKEYEXPIRED) ∧
    (¬ (cred.gc_upcall_timestamp ≤ now ∧
        now < cred.gc_upcall_timestamp + delay * hz) →
      gss_cred_is_negative_entry delay hz cred now = false) := by
  refine ⟨rfl, fun hneg hlo hhi => ?_, fun hout => ?_⟩
  · simp [gss_refresh, gss_cred_is_negative_entry, hneg, hlo, hhi]
  · by_cases h1 : cred.gc_upcall_timestamp ≤ now
    · have h2 : ¬ now < cred.gc_upcall_timestamp + delay * hz := fun h2 => hout ⟨h1, h2⟩
      simp [gss_cred_is_negative_entry, h2]
    · simp [gss_cred_is_negative_entry, h1]

/-- Witness for gss_refresh_negative_cooldown: with the default 5-second
delay and hz = 100, a NEGATIVE cred stamped at jiffy 0 fails with
-EKEYEXPIRED at jiffy 3, and at jiffy 500 the cooldown check passes. -/
theorem gss_refresh_negative_cooldown_witness :
    gss_refresh 5 100 (Except.ok
        { new := true, uptodate := false, negative := false, cr_uid := 0
          gc_principal := none, gc_upcall_timestamp := 0, gc_ctx := none })
      (fun _ => 0)
      { new := true, uptodate := false, negative := true, cr_uid := 0
        gc_principal := none, gc_upcall_timestamp := 0, gc_ctx := none }
      3 = -EKEYEXPIRED ∧
    gss_cred_is_negative_entry 5 100
      { new := true, uptodate := false, negative := true, cr_uid := 0
        gc_principal := none, gc_upcall_timestamp := 0, gc_ctx := none }
      500 = false := by
  constructor
  · exact (gss_refresh_negative_cooldown 5 100 _ _ _ 3).2.1 rfl (by decide) (by decide)
  · exact (gss_refresh_negative_cooldown 5 100 (Except.error 0) (fun _ => 0) _ 500).2.2
      (by decide)

/-- C8: in gss_wrap_req_priv, after a successful mechanism wrap the opaque
length is patched to snd_buf->len - offset, exactly
3 - ((snd_buf->len - offset - 1) mod 4) zero bytes of padding are appended
(always between 0 and 3), and the resulting payload length
(ciphertext plus pad) is a multiple of 4. -/
theorem gss_wrap_req_priv_padding (flags : GssCredSt) (bufLen offset : Nat)
    (hoff : offset < bufLen) :
    gss_wrap_req_priv flags 0 bufLen offset =
      (Except.ok (gss_wrap_req_priv_finish bufLen offset), flags) ∧
    (gss_wrap_req_priv_finish bufLen offset).opaqueLen = bufLen - offset ∧
    (gss_wrap_req_priv_finish bufLen offset).pad =
      3 - ((bufLen - offset - 1) % 4) ∧
    (gss_wrap_req_priv_finish bufLen offset).pad ≤ 3 ∧
    ((gss_wrap_req_priv_finish bufLen offset).opaqueLen +
      (gss_wrap_req_priv_finish bufLen offset).pad) % 4 = 0 ∧
    (gss_wrap_req_priv_finish bufLen offset).finalLen =
      bufLen + (gss_wrap_req_priv_finish bufLen offset).pad := by
  refine ⟨by simp [gss_wrap_req_priv, GSS_S_CONTEXT_EXPIRED], rfl, rfl, ?_, ?_, rfl⟩
  · simp only [gss_wrap_req_priv_finish]
    omega
  · simp only [gss_wrap_req_priv_finish]
    omega

/-- Witness for gss_wrap_req_priv_padding: snd_buf->len = 10, offset = 3,
ciphertext length 7, pad 1, total 8 which is a multiple of 4. -/
theorem gss_wrap_req_priv_padding_witness :
    (gss_wrap_req_priv_finish 10 3).opaqueLen = 7 ∧
    (gss_wrap_req_priv_finish 10 3).pad = 1 ∧
    ((gss_wrap_req_priv_finish 10 3).opaqueLen +
      (gss_wrap_req_priv_finish 10 3).pad) % 4 = 0 := by
  have h := gss_wrap_req_priv_padding
    { new := true, uptodate := false, negative := false, cr_uid := 0
      gc_principal := none, gc_upcall_timestamp := 0, gc_ctx := none }
    10 3 (by decide)
  exact ⟨by decide, by decide, h.2.2.2.2.1⟩

/-- C4: the gss_pipe_downcall dispatch on the gss_fill_context result —
transient errors (-EFAULT, -ENOMEM, -EINVAL, -ENOSYS) rewrite the message
errno to -EAGAIN (and the cred, consuming that errno, keeps its NEW flag
and its context untouched); -EACCES and -EKEYEXPIRED are recorded on the
message unchanged and the downcall returns mlen as success; any other fill
error hits BUG(). -/
theorem gss_downcall_transient_errors (e mlen : Int) (cred : GssCredSt) (now : Nat) :
    ((e = -EFAULT ∨ e = -ENOMEM ∨ e = -EINVAL ∨ e = -ENOSYS) →
      gss_pipe_downcall_result (Except.error e) mlen = some (none, -EAGAIN, e) ∧
      (gss_handle_downcall_result cred (-EAGAIN) none now).new = cred.new ∧
      (gss_handle_downcall_result cred (-EAGAIN) none now).uptodate = cred.uptodate ∧
      (gss_handle_downcall_result cred (-EAGAIN) none now).gc_ctx = cred.gc_ctx) ∧
    ((e = -EACCES ∨ e = -EKEYEXPIRED) →
      gss_pipe_downcall_result (Except.error e) mlen = some (none, e, mlen)) ∧
    (¬ (e = -EACCES ∨ e = -EKEYEXPIRED ∨ e = -EFAULT ∨ e = -ENOMEM ∨
        e = -EINVAL ∨ e = -ENOSYS) →
      gss_pipe_downcall_result (Except.error e) mlen = none) := by
  refine ⟨fun h => ?_, fun h => ?_, fun h => ?_⟩
  · rcases h with h | h | h | h <;> subst h <;>
      simp [gss_pipe_downcall_result, gss_handle_downcall_result, EFAULT, ENOMEM,
        EINVAL, ENOSYS, EACCES, EKEYEXPIRED, EAGAIN]
  · rcases h with h | h <;> subst h <;>
      simp [gss_pipe_downcall_result, EACCES, EKEYEXPIRED]
  · push_neg at h
    obtain ⟨h1, h2, h3, h4, h5, h6⟩ := h
    simp [gss_pipe_downcall_result, h1, h2, h3, h4, h5, h6]

/-- Witness for gss_downcall_transient_errors at e = -EFAULT, e = -EACCES
and the out-of-range error -1000. -/
theorem gss_downcall_transient_errors_witness :
    gss_pipe_downcall_result (Except.error (-EFAULT)) 20 = some (none, -EAGAIN, -EFAULT) ∧
    gss_pipe_downcall_result (Except.error (-EACCES)) 20 = some (none, -EACCES, 20) ∧
    gss_pipe_downcall_result (Except.error (-1000)) 20 = none := by
  refine ⟨?_, ?_, ?_⟩
  · exact ((gss_downcall_transient_errors (-EFAULT) 20
      { new := true, uptodate := false, negative := false, cr_uid := 0
        gc_principal := none, gc_upcall_timestamp := 0, gc_ctx := none } 0).1
      (Or.inl rfl)).1
  · exact (gss_downcall_transient_errors (-EACCES) 20
      { new := true, uptodate := false, negative := false, cr_uid := 0
        gc_principal := none, gc_upcall_timestamp := 0, gc_ctx := none } 0).2.1
      (Or.inl rfl)
  · exact (gss_downcall_transient_errors (-1000) 20
      { new := true, uptodate := false, negative := false, cr_uid := 0
        gc_principal := none, gc_upcall_timestamp := 0, gc_ctx := none } 0).2.2
      (by decide)

/-- Helper: gss_find_upcall reports nothing exactly when no linked message
carries the uid. -/
theorem gss_find_upcall_eq_none (l : List GssUpcallMsg) (uid : Nat) :
    gss_find_upcall l uid = none ↔ ∀ m ∈ l, m.uid ≠ uid := by
  induction l with
  | nil => simp [gss_find_upcall]
  | cons m rest ih =>
      by_cases hm : m.uid = uid
      · simp [gss_find_upcall, hm]
      · simp only [gss_find_upcall, hm, if_false]
        constructor
        · intro h
          cases hr : gss_find_upcall rest uid with
          | none =>
              intro x hx
              rcases List.mem_cons.mp hx with hx1 | hx1
              · rw [hx1]; exact hm
              · exact (ih.mp hr) x hx1
          | some p => simp [hr] at h
        · intro h
          have : gss_find_upcall rest uid = none :=
            ih.mpr (fun x hx => h x (List.mem_cons_of_mem m hx))
          simp [this]

/-- Helper: when a message with the uid is linked, gss_find_upcall returns
the first such message with its refcount bumped, and leaves the uids of the
in-flight list unchanged. -/
theorem gss_find_upcall_eq_find? (l : List GssUpcallMsg) (uid : Nat)
    (old : GssUpcallMsg)
    (h : l.find? (fun m => m.uid == uid) = some old) :
    ∃ l2, gss_find_upcall l uid = some ({ old with count := old.count + 1 }, l2) ∧
      l2.map GssUpcallMsg.uid = l.map GssUpcallMsg.uid := by
  induction l with
  | nil => simp [List.find?] at h
  | cons m rest ih =>
      by_cases hm : m.uid = uid
      · rw [List.find?_cons_of_pos _ (by simp [hm])] at h
        have hmo : old = m := by simpa using h.symm
        subst hmo
        exact ⟨{ old with count := old.count + 1 } :: rest,
          by simp [gss_find_upcall, hm], by simp⟩
      · rw [List.find?_cons_of_neg _ (by simp [hm])] at h
        obtain ⟨l2, hfind, hmap⟩ := ih h
        exact ⟨m :: l2, by simp [gss_find_upcall, hm, hfind], by simp [hmap]⟩

/-- C2: gss_add_msg keeps at most one in-flight upcall per uid: when no
message with the uid is linked, the new message is linked (with a reference
taken) at the head of the list; when one is linked, the new message is
dropped, the existing message is returned with a reference taken, and the
set of linked uids is unchanged; distinctness of linked uids is preserved. -/
theorem gss_add_msg_dedup (gss_msg : GssUpcallMsg) (l : List GssUpcallMsg) :
    ((∀ m ∈ l, m.uid ≠ gss_msg.uid) →
      gss_add_msg gss_msg l =
        ({ gss_msg with count := gss_msg.count + 1 },
         { gss_msg with count := gss_msg.count + 1 } :: l)) ∧
    (∀ old, l.find? (fun m => m.uid == gss_msg.uid) = some old →
      (gss_add_msg gss_msg l).1 = { old with count := old.count + 1 } ∧
      (gss_add_msg gss_msg l).2.map GssUpcallMsg.uid = l.map GssUpcallMsg.uid) ∧
    ((l.map GssUpcallMsg.uid).Nodup →
      ((gss_add_msg gss_msg l).2.map GssUpcallMsg.uid).Nodup) := by
  refine ⟨fun h => ?_, fun old h => ?_, fun hnd => ?_⟩
  · have : gss_find_upcall l gss_msg.uid = none :=
      (gss_find_upcall_eq_none l gss_msg.uid).mpr h
    simp [gss_add_msg, this]
  · obtain ⟨l2, hfind, hmap⟩ := gss_find_upcall_eq_find? l gss_msg.uid old h
    simp [gss_add_msg, hfind, hmap]
  · cases hf : gss_find_upcall l gss_msg.uid with
    | none =>
        have hnot : ∀ m ∈ l, m.uid ≠ gss_msg.uid :=
          (gss_find_upcall_eq_none l gss_msg.uid).mp hf
        have hmem : gss_msg.uid ∉ l.map GssUpcallMsg.uid := by
          simp only [List.mem_map, not_exists]
          intro x hx
          rcases hx with ⟨hx1, hx2⟩
          exact (hnot x hx1) hx2
        simp [gss_add_msg, hf, List.nodup_cons, hmem, hnd]
    | some p =>
        rcases p with ⟨found, l2⟩
        have hself : ∃ old, l.find? (fun m => m.uid == gss_msg.uid) = some old := by
          cases hq : l.find? (fun m => m.uid == gss_msg.uid) with
          | none =>
              have : ∀ m ∈ l, m.uid ≠ gss_msg.uid := by
                intro m hm
                have := List.find?_eq_none.mp hq m hm
                simpa using this
              rw [(gss_find_upcall_eq_none l gss_msg.uid).mpr this] at hf
              simp at hf
          | some q => exact ⟨q, rfl⟩
        obtain ⟨old, hq⟩ := hself
        obtain ⟨l3, hfind, hmap⟩ := gss_find_upcall_eq_find? l gss_msg.uid old hq
        rw [hf] at hfind
        have h2 : l2 = l3 := congrArg Prod.snd (Option.some.inj hfind)
        subst h2
        simpa [gss_add_msg, hf, hmap] using hnd

/-- Witness for gss_add_msg_dedup: adding a message for uid 7 to a list
already holding a uid-7 message returns the existing message with its count
bumped; adding to a list that only holds uid 9 links the new message. -/
theorem gss_add_msg_dedup_witness :
    (gss_add_msg { uid := 7, count := 1, errno := 0, ctx := none }
        [{ uid := 7, count := 2, errno := 0, ctx := none }]).1 =
      { uid := 7, count := 3, errno := 0, ctx := none } ∧
    gss_add_msg { uid := 7, count := 1, errno := 0, ctx := none }
        [{ uid := 9, count := 2, errno := 0, ctx := none }] =
      ({ uid := 7, count := 2, errno := 0, ctx := none },
       [{ uid := 7, count := 2, errno := 0, ctx := none },
        { uid := 9, count := 2, errno := 0, ctx := none }]) := by
  constructor
  · exact ((gss_add_msg_dedup { uid := 7, count := 1, errno := 0, ctx := none }
      [{ uid := 7, count := 2, errno := 0, ctx := none }]).2.1
      { uid := 7, count := 2, errno := 0, ctx := none } (by decide)).1
  · exact (gss_add_msg_dedup { uid := 7, count := 1, errno := 0, ctx := none }
      [{ uid := 9, count := 2, errno := 0, ctx := none }]).1 (by decide)

/-- Helper: after n marshal calls on a fresh context the u32 sequence
counter holds n + 1, as long as it has not wrapped. -/
theorem ctx_after_marshals_gc_seq (n : Nat) (h : n + 1 < U32MOD) :
    (ctx_after_marshals n).gc_seq = n + 1 := by
  induction n with
  | zero => rfl
  | succ k ih =>
      have hk : k + 1 < U32MOD := Nat.lt_of_succ_lt h
      have : (ctx_after_marshals (k + 1)).gc_seq =
          ((ctx_after_marshals k).gc_seq + 1) % U32MOD := by
        simp [ctx_after_marshals, gss_marshal, GSS_S_CONTEXT_EXPIRED]
      rw [this, ih hk]
      exact Nat.mod_eq_of_lt h

/-- C1: a freshly allocated context has proc = DATA, seq = 1 and refcount 1;
gss_marshal assigns rq_seqno from the current gc_seq and bumps the counter
by one, so the first marshal on a fresh context uses seqno 1 and, as long as
the u32 counter has not wrapped (the daemon chooses expiry and window to
prevent that), every later marshal uses a strictly greater seqno. -/
theorem gss_marshal_seqno_monotonic :
    gss_alloc_context.gc_proc = RPC_GSS_PROC_DATA ∧
    gss_alloc_context.gc_seq = 1 ∧
    gss_alloc_context.count = 1 ∧
    (∀ (flags : GssCredSt) (service micStat micLen : Nat),
      (gss_marshal gss_alloc_context flags service micStat micLen).rq_seqno = 1 ∧
      (gss_marshal gss_alloc_context flags service micStat micLen).ctx.gc_seq = 2) ∧
    (∀ (ctx : GssClCtx) (flags : GssCredSt) (service micStat micLen : Nat),
      (gss_marshal ctx flags service micStat micLen).rq_seqno = ctx.gc_seq ∧
      (gss_marshal ctx flags service micStat micLen).ctx.gc_seq =
        (ctx.gc_seq + 1) % U32MOD) ∧
    (∀ i j : Nat, i < j → j + 1 < U32MOD →
      seqno_of_marshal i < seqno_of_marshal j) := by
  refine ⟨rfl, rfl, rfl, ?_, ?_, ?_⟩
  · intro flags service micStat micLen
    constructor <;>
      · unfold gss_marshal
        split <;> try split
        all_goals rfl
  · intro ctx flags service micStat micLen
    constructor <;>
      · unfold gss_marshal
        split <;> try split
        all_goals rfl
  · intro i j hij hj
    have hi : i + 1 < U32MOD := by omega
    rw [seqno_of_marshal, seqno_of_marshal,
      ctx_after_marshals_gc_seq i hi, ctx_after_marshals_gc_seq j hj]
    omega

/-- Witness for gss_marshal_seqno_monotonic: the first two marshal calls on
a fresh context assign 1 and then 2. -/
theorem gss_marshal_seqno_monotonic_witness :
    seqno_of_marshal 0 = 1 ∧ seqno_of_marshal 1 = 2 ∧
    seqno_of_marshal 0 < seqno_of_marshal 1 := by
  refine ⟨rfl, rfl, ?_⟩
  exact gss_marshal_seqno_monotonic.2.2.2.2.2 0 1 (by decide) (by decide)

/-- Helper: simple_get_bytes on a buffer with at least four leading bytes
consumes exactly those four. -/
theorem simple_get_bytes_cons4 (a b c d : Nat) (t : List Nat) :
    simple_get_bytes (a :: b :: c :: d :: t) 4 =
      Except.ok (decodeLE [a, b, c, d], t) := by
  have hlen : ¬ (a :: b :: c :: d :: t).length < 4 := by simp
  unfold simple_get_bytes
  rw [if_neg hlen]
  rfl

/-- C3: on a downcall whose window field is 0, gss_fill_context reads the
next 4 bytes as a signed errno and fails with -EKEYEXPIRED verbatim or
-EACCES for anything else; the downcall then records that errno on the
message with no context published, and a cred consuming -EKEYEXPIRED is
marked NEGATIVE (while -EACCES leaves the flags alone); in both cases the
cred context pointer is untouched. -/
theorem gss_fill_context_window0
    (t0 t1 t2 t3 w0 w1 w2 w3 e0 e1 e2 e3 : Nat) (rest : List Nat)
    (now hz : Nat) (importR : List Nat → Except Int Unit)
    (cred : GssCredSt) (mlen : Int)
    (hw : decodeLE [w0, w1, w2, w3] = 0) :
    gss_fill_context
        (t0 :: t1 :: t2 :: t3 :: w0 :: w1 :: w2 :: w3 ::
          e0 :: e1 :: e2 :: e3 :: rest) now hz importR =
      Except.error
        (if asInt32 (decodeLE [e0, e1, e2, e3]) = -EKEYEXPIRED
          then -EKEYEXPIRED else -EACCES) ∧
    gss_pipe_downcall_result
        (Except.error
          (if asInt32 (decodeLE [e0, e1, e2, e3]) = -EKEYEXPIRED
            then (-EKEYEXPIRED : Int) else -EACCES)) mlen =
      some (none,
        (if asInt32 (decodeLE [e0, e1, e2, e3]) = -EKEYEXPIRED
          then (-EKEYEXPIRED : Int) else -EACCES), mlen) ∧
    (gss_handle_downcall_result cred (-EKEYEXPIRED) none now).negative = true ∧
    (gss_handle_downcall_result cred (-EKEYEXPIRED) none now).gc_ctx = cred.gc_ctx ∧
    (gss_handle_downcall_result cred (-EACCES) none now).negative = cred.negative ∧
    (gss_handle_downcall_result cred (-EACCES) none now).gc_ctx = cred.gc_ctx := by
  refine ⟨?_, ?_, ?_, ?_, ?_, ?_⟩
  · by_cases hke : asInt32 (decodeLE [e0, e1, e2, e3]) = -EKEYEXPIRED
    · unfold gss_fill_context
      simp [simple_get_bytes_cons4, hw, hke]
    · unfold gss_fill_context
      simp [simple_get_bytes_cons4, hw, hke]
  · by_cases hke : asInt32 (decodeLE [e0, e1, e2, e3]) = -EKEYEXPIRED <;>
      simp [gss_pipe_downcall_result, EACCES, EKEYEXPIRED, hke]
  · simp [gss_handle_downcall_result, EKEYEXPIRED]
  · simp [gss_handle_downcall_result, EKEYEXPIRED, gss_cred_set_ctx]
  · simp [gss_handle_downcall_result, EACCES, EKEYEXPIRED]
  · simp [gss_handle_downcall_result, EACCES, EKEYEXPIRED]

/-- Witness for gss_fill_context_window0: a concrete downcall body with
timeout 0, window 0 and errno bytes encoding -EKEYEXPIRED
(0xffffff81 little-endian) fails with -EKEYEXPIRED. -/
theorem gss_fill_context_window0_witness :
    gss_fill_context
        [0, 0, 0, 0, 0, 0, 0, 0, 129, 255, 255, 255] 5 100
        (fun _ => Except.ok ()) =
      Except.error (-EKEYEXPIRED) ∧
    (gss_handle_downcall_result
        { new := true, uptodate := false, negative := false, cr_uid := 0
          gc_principal := none, gc_upcall_timestamp := 0, gc_ctx := none }
        (-EKEYEXPIRED) none 5).negative = true := by
  have h := gss_fill_context_window0 0 0 0 0 0 0 0 0 129 255 255 255 [] 5 100
    (fun _ => Except.ok ())
    { new := true, uptodate := false, negative := false, cr_uid := 0
      gc_principal := none, gc_upcall_timestamp := 0, gc_ctx := none }
    12 (by decide)
  refine ⟨?_, h.2.2.1⟩
  have h1 := h.1
  rw [if_pos (by decide)] at h1
  exact h1

/-- C7: gss_encode_v1_msg emits exactly the text the specification
describes — mech=<name> uid=<decimal> with optional target=, service= and
enctypes= fields, each space-terminated, plus a final newline — its
accumulated msg.len equals the payload length, a payload of exactly
UPCALL_BUF_LEN = 128 bytes passes the BUG_ON guard and is emitted, and any
longer payload is refused. -/
theorem gss_encode_v1_msg_bound (mechName : String) (uid : Nat)
    (principal serviceName enctypes : Option String) :
    (gss_encode_v1_msg mechName uid principal serviceName enctypes).1 =
      gss_v1_payload_spec mechName uid principal serviceName enctypes ∧
    (gss_encode_v1_msg mechName uid principal serviceName enctypes).2 =
      (gss_encode_v1_msg mechName uid principal serviceName enctypes).1.length ∧
    ((gss_encode_v1_msg mechName uid principal serviceName enctypes).1.length = 128 →
      gss_encode_v1_msg_checked mechName uid principal serviceName enctypes =
        some (gss_encode_v1_msg mechName uid principal serviceName enctypes).1) ∧
    ((gss_encode_v1_msg mechName uid principal serviceName enctypes).1.length > 128 →
      gss_encode_v1_msg_checked mechName uid principal serviceName enctypes = none) := by
  have hfmt : (gss_encode_v1_msg mechName uid principal serviceName enctypes).1 =
      gss_v1_payload_spec mechName uid principal serviceName enctypes := by
    rcases principal with _ | cp <;> rcases serviceName with _ | sv <;>
      rcases enctypes with _ | et <;>
        simp only [gss_encode_v1_msg, gss_v1_payload_spec, String.append_assoc,
          String.append_empty, String.empty_append]
  have hlen : (gss_encode_v1_msg mechName uid principal serviceName enctypes).2 =
      (gss_encode_v1_msg mechName uid principal serviceName enctypes).1.length := by
    have hnl : ("\n" : String).length = 1 := rfl
    unfold gss_encode_v1_msg
    rcases principal with _ | cp <;> rcases serviceName with _ | sv <;>
      rcases enctypes with _ | et <;>
        simp [String.length_append, hnl] <;> omega
  refine ⟨hfmt, hlen, fun h128 => ?_, fun hbig => ?_⟩
  · unfold gss_encode_v1_msg_checked
    rw [if_pos]
    rw [hlen, h128]
    rfl
  · unfold gss_encode_v1_msg_checked
    rw [if_neg]
    rw [hlen]
    unfold UPCALL_BUF_LEN
    omega

set_option maxRecDepth 8192 in
/-- Witness for gss_encode_v1_msg_bound: a mechanism name of 115 characters
yields a payload of exactly 128 bytes, which is emitted, and one of 116
characters yields 129 bytes, which is refused. -/
theorem gss_encode_v1_msg_bound_witness :
    (gss_encode_v1_msg
        "aaaaaaaaaaaaaaaaaaaaaaaaaaaaaaaaaaaaaaaaaaaaaaaaaaaaaaaaaaaaaaaaaaaaaaaaaaaaaaaaaaaaaaaaaaaaaaaaaaaaaaaaaaaaaaaaaaa"
        0 none none none).1.length = 128 ∧
    gss_encode_v1_msg_checked
        "aaaaaaaaaaaaaaaaaaaaaaaaaaaaaaaaaaaaaaaaaaaaaaaaaaaaaaaaaaaaaaaaaaaaaaaaaaaaaaaaaaaaaaaaaaaaaaaaaaaaaaaaaaaaaaaaaaa"
        0 none none none =
      some (gss_encode_v1_msg
        "aaaaaaaaaaaaaaaaaaaaaaaaaaaaaaaaaaaaaaaaaaaaaaaaaaaaaaaaaaaaaaaaaaaaaaaaaaaaaaaaaaaaaaaaaaaaaaaaaaaaaaaaaaaaaaaaaaa"
        0 none none none).1 ∧
    (gss_encode_v1_msg
        "aaaaaaaaaaaaaaaaaaaaaaaaaaaaaaaaaaaaaaaaaaaaaaaaaaaaaaaaaaaaaaaaaaaaaaaaaaaaaaaaaaaaaaaaaaaaaaaaaaaaaaaaaaaaaaaaaaaa"
        0 none none none).1.length = 129 ∧
    gss_encode_v1_msg_checked
        "aaaaaaaaaaaaaaaaaaaaaaaaaaaaaaaaaaaaaaaaaaaaaaaaaaaaaaaaaaaaaaaaaaaaaaaaaaaaaaaaaaaaaaaaaaaaaaaaaaaaaaaaaaaaaaaaaaaa"
        0 none none none = none := by
  refine ⟨by decide, ?_, by decide, ?_⟩
  · exact (gss_encode_v1_msg_bound
      "aaaaaaaaaaaaaaaaaaaaaaaaaaaaaaaaaaaaaaaaaaaaaaaaaaaaaaaaaaaaaaaaaaaaaaaaaaaaaaaaaaaaaaaaaaaaaaaaaaaaaaaaaaaaaaaaaaa"
      0 none none none).2.2.1 (by decide)
  · exact (gss_encode_v1_msg_bound
      "aaaaaaaaaaaaaaaaaaaaaaaaaaaaaaaaaaaaaaaaaaaaaaaaaaaaaaaaaaaaaaaaaaaaaaaaaaaaaaaaaaaaaaaaaaaaaaaaaaaaaaaaaaaaaaaaaaaa"
      0 none none none).2.2.2 (by decide)

/-- C9 counterexample: at a concrete input, a GSS_S_CONTEXT_EXPIRED result
from gss_get_mic during gss_marshal does NOT make the marshal fail — the
source clears UPTODATE and falls through to emit the verifier, returning a
non-NULL pointer — contradicting the claim that the operation itself fails
for both MIC paths (marshal and validate). -/
theorem gss_marshal_context_expired_cex :
    (gss_marshal gss_alloc_context
        { new := false, uptodate := true, negative := false, cr_uid := 0
          gc_principal := none, gc_upcall_timestamp := 0, gc_ctx := none }
        2 GSS_S_CONTEXT_EXPIRED 0).written ≠ none ∧
    (gss_marshal gss_alloc_context
        { new := false, uptodate := true, negative := false, cr_uid := 0
          gc_principal := none, gc_upcall_timestamp := 0, gc_ctx := none }
        2 GSS_S_CONTEXT_EXPIRED 0).flags.uptodate = false := by
  constructor
  · simp [gss_marshal]
  · simp [gss_marshal]

/-- C9 (amended): a context-expired major status clears UPTODATE in
marshal, validate, wrap and unwrap; for wrap — and likewise for marshal —
the operation nevertheless completes (the payload or header goes out),
whereas validate and the unwrap paths fail for that call. -/
theorem gss_context_expired_behavior (ctx : GssClCtx) (flags : GssCredSt)
    (service micLen flav len bufLen offset : Nat) :
    ((gss_marshal ctx flags service GSS_S_CONTEXT_EXPIRED micLen).flags.uptodate
        = false ∧
      (gss_marshal ctx flags service GSS_S_CONTEXT_EXPIRED micLen).written ≠ none) ∧
    (len ≤ RPC_MAX_AUTH_SIZE → flav = RPC_AUTH_GSS →
      (gss_validate flags flav len GSS_S_CONTEXT_EXPIRED).1 = none ∧
      (gss_validate flags flav len GSS_S_CONTEXT_EXPIRED).2.uptodate = false) ∧
    ((gss_wrap_req_priv flags GSS_S_CONTEXT_EXPIRED bufLen offset).1 =
        Except.ok (gss_wrap_req_priv_finish bufLen offset) ∧
      (gss_wrap_req_priv flags GSS_S_CONTEXT_EXPIRED bufLen offset).2.uptodate = false) ∧
    ((gss_wrap_req_integ flags GSS_S_CONTEXT_EXPIRED).1 = 0 ∧
      (gss_wrap_req_integ flags GSS_S_CONTEXT_EXPIRED).2.uptodate = false) ∧
    ((gss_unwrap_resp_integ flags GSS_S_CONTEXT_EXPIRED).1 = -5 ∧
      (gss_unwrap_resp_integ flags GSS_S_CONTEXT_EXPIRED).2.uptodate = false) ∧
    ((gss_unwrap_resp_priv flags GSS_S_CONTEXT_EXPIRED).1 = -5 ∧
      (gss_unwrap_resp_priv flags GSS_S_CONTEXT_EXPIRED).2.uptodate = false) := by
  refine ⟨⟨by simp [gss_marshal], by simp [gss_marshal]⟩, fun hlen hflav => ?_,
    ⟨by simp [gss_wrap_req_priv], by simp [gss_wrap_req_priv]⟩,
    ⟨by simp [gss_wrap_req_integ], by simp [gss_wrap_req_integ]⟩,
    ⟨by simp [gss_unwrap_resp_integ, GSS_S_COMPLETE, GSS_S_CONTEXT_EXPIRED],
     by simp [gss_unwrap_resp_integ]⟩,
    ⟨by simp [gss_unwrap_resp_priv, GSS_S_COMPLETE, GSS_S_CONTEXT_EXPIRED],
     by simp [gss_unwrap_resp_priv]⟩⟩
  constructor
  · simp [gss_validate, hflav, Nat.not_lt.mpr hlen, GSS_S_CONTEXT_EXPIRED]
  · simp [gss_validate, hflav, Nat.not_lt.mpr hlen, GSS_S_CONTEXT_EXPIRED]

/-- Witness for gss_context_expired_behavior: a context-expired validate of
a 48-byte RPC_AUTH_GSS verifier fails while clearing UPTODATE. -/
theorem gss_context_expired_behavior_witness :
    (gss_validate
        { new := false, uptodate := true, negative := false, cr_uid := 0
          gc_principal := none, gc_upcall_timestamp := 0, gc_ctx := none }
        RPC_AUTH_GSS 48 GSS_S_CONTEXT_EXPIRED).1 = none ∧
    (gss_validate
        { new := false, uptodate := true, negative := false, cr_uid := 0
          gc_principal := none, gc_upcall_timestamp := 0, gc_ctx := none }
        RPC_AUTH_GSS 48 GSS_S_CONTEXT_EXPIRED).2.uptodate = false := by
  exact (gss_context_expired_behavior gss_alloc_context
    { new := false, uptodate := true, negative := false, cr_uid := 0
      gc_principal := none, gc_upcall_timestamp := 0, gc_ctx := none }
    2 0 RPC_AUTH_GSS 48 0 0).2.1 (by decide) rfl

end AuthGss
